import Mathlib

/-!
Shallow embedding of `src/scraper.py` (class `RobloxScraper`) and proofs about it.

Modelling conventions:
* Python strings are Lean `String`s; string operations are re-implemented over
  `List Char` so that every definition reduces in the kernel.  All inputs of
  interest are ASCII, where `Char.toLower` agrees with Python `str.lower`.
* Network effects are an explicit `World` value: the responses the external
  endpoints would give.  A fetch outcome is `Fetch`: a response, a timeout, a
  connection error, or some other exception (`requests` raising).
* `datetime.now().isoformat()` is an explicit `now : String` parameter.
* `re` patterns are embedded by a small backtracking matcher (`RE`, `mrun`)
  whose alternation is left-first and whose `star`/`opt` are greedy, matching
  Python `re` semantics for the concrete patterns used by the scraper.
-/

set_option maxRecDepth 8192

namespace Scraper

/-- Python `str.strip` / `\s` whitespace set (ASCII). -/
def pyWs (c : Char) : Bool :=
  c = ' ' || c = '\t' || c = '\n' || c = '\r' || c = '\x0b' || c = '\x0c'

/-- Python `str.strip()`: drop leading and trailing whitespace. -/
def pyStrip (l : List Char) : List Char :=
  ((l.dropWhile pyWs).reverse.dropWhile pyWs).reverse

/-- Python `str.lower()` on ASCII text. -/
def pyLower (l : List Char) : List Char := l.map Char.toLower

/-- Does `l` start with `p`?  (Python slice comparison; used for substring scans.) -/
def startsWith : List Char → List Char → Bool
  | _, [] => true
  | [], _ :: _ => false
  | c :: cs, p :: ps => c == p && startsWith cs ps

/-- Python `sub in s` substring test. -/
def pyContains (s sub : List Char) : Bool :=
  match s with
  | [] => startsWith [] sub
  | _ :: cs => startsWith s sub || pyContains cs sub

/-- Recursion worker for `pyReplace`. -/
def pyReplaceFuel : Nat → List Char → List Char → List Char → List Char
  | 0, l, _, _ => l
  | _ + 1, [], _, _ => []
  | fuel + 1, c :: cs, pat, rep =>
    if startsWith (c :: cs) pat && !pat.isEmpty then
      rep ++ pyReplaceFuel fuel ((c :: cs).drop pat.length) pat rep
    else
      c :: pyReplaceFuel fuel cs pat rep

/-- Python `s.replace(pat, rep)` for non-empty `pat`: replace every
non-overlapping occurrence, scanning left to right.  The fuel only bounds the
structural recursion; every step consumes at least one character, so
`l.length + 1` always suffices. -/
def pyReplace (l pat rep : List Char) : List Char :=
  pyReplaceFuel (l.length + 1) l pat rep

/-- Python `s.split(sep)[0]` for non-empty `sep`: the text before the first
occurrence of `sep` (the whole string if `sep` does not occur). -/
def pySplitFirst : List Char → List Char → List Char
  | [], _ => []
  | c :: cs, sep =>
    if startsWith (c :: cs) sep && sep.length ≠ 0 then []
    else c :: pySplitFirst cs sep

/-- Python `s.endswith(c)` for a single character. -/
def endsWithChar (l : List Char) (c : Char) : Bool :=
  match l.getLast? with
  | some d => d == c
  | none => false

/-- Numeric value of a digit string (Python `int` on digits, e.g. `int("0012") = 12`). -/
def natOfDigits (l : List Char) : Nat :=
  l.foldl (fun n c => n * 10 + (c.toNat - '0'.toNat)) 0

/-- Multiplier and residue computed by `_parse_number` (src/scraper.py lines
400-415): strip, lowercase, peel one trailing k/m/b multiplier suffix, then
delete every character that is not a digit or a dot (`re.sub(r'[^\d.]', '', text)`). -/
def parse_residue (text : String) : Nat × List Char :=
  let t0 := pyLower (pyStrip text.toList)
  let (multiplier, t1) :=
    if endsWithChar t0 'k' then (1000, t0.dropLast)
    else if endsWithChar t0 'm' then (1000000, t0.dropLast)
    else if endsWithChar t0 'b' then (1000000000, t0.dropLast)
    else (1, t0)
  (multiplier, t1.filter (fun c => c.isDigit || c == '.'))

/-- Outcome of Python `int(float(number_str) * multiplier)` (src/scraper.py
line 417): a finite value, an uncaught `OverflowError`, or a `ValueError`
(which the handler at line 420 catches). -/
inductive FloatIntResult where
  | val (n : Nat)
  | overflow (n : Nat)
  | valueError
deriving DecidableEq

/-- Overflow threshold of IEEE-754 binary64: CPython's correctly-rounded
`float()` (round to nearest, ties to even) maps a decimal string to `inf`
exactly when its value is at least `2^1024 - 2^970` (the midpoint between the
largest finite double and `2^1024`, which ties to even, that is to `inf`);
an IEEE multiplication overflows to `inf` under the same condition on the
exact product. -/
def floatOverflowThreshold : Nat := 2 ^ 1024 - 2 ^ 970

/-- Python `int(float(number_str) * multiplier)` for a residue `l` of digits
and dots (src/scraper.py line 417).  `float` is defined (no `ValueError`) iff
the residue has at most one dot and at least one digit; its exact value for
`"a.b"` is `natOfDigits (a ++ b) / 10 ^ |b|`, so the truncated product is
`natOfDigits (a ++ b) * m / 10 ^ |b|` in `ℕ`.  When the product reaches the
binary64 overflow threshold, `float()` (for `m = 1`: an exact test) or the
subsequent multiplication (for the power-of-ten multipliers, which are exact
doubles) yields `inf` and `int(inf)` raises `OverflowError` — which the
handler `except (ValueError, AttributeError)` at line 420 does NOT catch:
`overflow` records this raising path, carrying the exact value the
computation was about to truncate.  Away from the raising path, binary
floating-point rounding of finite values is idealized as exact rational
arithmetic; this affects neither the sign nor any value claimed in the spec,
and only inputs within a relative `2^-53` of the threshold could be
misclassified between `val` and `overflow` (no theorem below depends on such
a boundary input). -/
def pyFloatIntMul (l : List Char) (m : Nat) : FloatIntResult :=
  let intPart := l.takeWhile (fun c => c != '.')
  match l.dropWhile (fun c => c != '.') with
  | '.' :: frac =>
    if frac.contains '.' then .valueError
    else if intPart.isEmpty && frac.isEmpty then .valueError
    else if floatOverflowThreshold * 10 ^ frac.length ≤ natOfDigits (intPart ++ frac) * m then
      .overflow (natOfDigits (intPart ++ frac) * m / 10 ^ frac.length)
    else .val (natOfDigits (intPart ++ frac) * m / 10 ^ frac.length)
  | _ => .valueError

/-- Shallow embedding of `RobloxScraper._parse_number` (src/scraper.py lines
396-421) as a value function.  Returns `0` on any `ValueError` (empty or
non-numeric residue), mirroring the `except` clause.  On the `overflow`
outcome the program raises an uncaught `OverflowError` instead of returning
(`parse_number_raises` below exposes this); the value carried by `overflow`
is returned here so that the callers' embeddings (the extraction strategies,
whose observable divergence on such pathological pages is confined to
`_extract_followers`' blanket `except`) are unaffected. -/
def parse_number (text : String) : Int :=
  let (multiplier, numberStr) := parse_residue text
  if numberStr.contains '.' then
    match pyFloatIntMul numberStr multiplier with
    | .val n => (n : Int)
    | .overflow n => (n : Int)
    | .valueError => 0
  else
    match numberStr with
    | [] => 0
    | ds => (natOfDigits ds * multiplier : Nat)

/-- Raising predicate of `_parse_number`: `true` exactly when the call raises
an uncaught `OverflowError` — the residue is dotted and `int(float(...) *
multiplier)` overflows (see `pyFloatIntMul`).  No other branch of the source
can raise past the handler: the no-dot branch uses Python's arbitrary-
precision `int`, and empty or non-numeric residues raise `ValueError`, which
line 420 catches. -/
def parse_number_raises (text : String) : Bool :=
  let (multiplier, numberStr) := parse_residue text
  if numberStr.contains '.' then
    match pyFloatIntMul numberStr multiplier with
    | .overflow _ => true
    | _ => false
  else false

/-! ## A small backtracking regex matcher

Only the constructs used by the scraper's patterns are embedded: character
classes, concatenation, left-first alternation, greedy `*`/`?`/`+`, a single
capture group, and the word boundary `\b`.  `mrun` is a continuation-passing
backtracking matcher; its alternation order (left alternative first, longer
star/opt expansions first) coincides with Python `re`'s for these patterns.
-/

inductive RE where
  | eps
  | cls (p : Char → Bool)
  | seq (a b : RE)
  | alt (a b : RE)
  | star (a : RE)
  | opt (a : RE)
  | group (a : RE)
  | bnd

/-- Matcher state: the character just before the current position (for `\b`),
the remaining input, and the text of the last completed capture group. -/
structure MSt where
  prev : Option Char
  rest : List Char
  cap : Option (List Char)

/-- Python `\w` on ASCII: letters, digits, underscore. -/
def isWordChar (c : Char) : Bool := c.isAlphanum || c = '_'

/-- Python `\b`: exactly one side of the position is a word character. -/
def atBoundary (prev : Option Char) (rest : List Char) : Bool :=
  let a := match prev with | some c => isWordChar c | none => false
  let b := match rest with | c :: _ => isWordChar c | [] => false
  a != b

/-- Structural size of a pattern, used to compute a recursion-depth budget. -/
def reSize : RE → Nat
  | .eps | .bnd | .cls _ => 1
  | .seq a b | .alt a b => reSize a + reSize b + 1
  | .star a | .opt a | .group a => reSize a + 1

/-- Backtracking matcher in continuation-passing style.  `fuel` bounds the
recursion depth only; every `star` iteration must consume at least one
character (true of every pattern below), so a budget of
`(reSize re + 1) * (|rest| + 2) + 1` strictly exceeds any reachable depth. -/
def mrun : Nat → RE → MSt → (MSt → Option MSt) → Option MSt
  | 0, _, _, _ => none
  | _ + 1, .eps, st, k => k st
  | _ + 1, .cls p, st, k =>
    match st.rest with
    | c :: cs => if p c then k ⟨some c, cs, st.cap⟩ else none
    | [] => none
  | n + 1, .seq a b, st, k => mrun n a st (fun st1 => mrun n b st1 k)
  | n + 1, .alt a b, st, k =>
    match mrun n a st k with
    | some r => some r
    | none => mrun n b st k
  | n + 1, .opt a, st, k =>
    match mrun n a st k with
    | some r => some r
    | none => k st
  | n + 1, .star a, st, k =>
    match mrun n a st
        (fun st1 => if st1.rest.length < st.rest.length then mrun n (.star a) st1 k else none) with
    | some r => some r
    | none => k st
  | n + 1, .group a, st, k =>
    mrun n a st
      (fun st1 => k ⟨st1.prev, st1.rest, some (st.rest.take (st.rest.length - st1.rest.length))⟩)
  | _ + 1, .bnd, st, k => if atBoundary st.prev st.rest then k st else none

/-- Try to match `re` starting exactly at the current position. -/
def matchAt (re : RE) (prev : Option Char) (rest : List Char) : Option MSt :=
  mrun ((reSize re + 1) * (rest.length + 2) + 1) re ⟨prev, rest, none⟩ some

/-- Leftmost match at or after the current position.  Returns the text of the
capture group (the whole match when the pattern has no group), and the
position (with preceding character) right after the match. -/
def scanFrom (re : RE) : Option Char → List Char →
    Option (List Char × Option Char × List Char)
  | prev, [] =>
    (matchAt re prev []).map (fun stEnd => (stEnd.cap.getD [], stEnd.prev, stEnd.rest))
  | prev, c :: cs =>
    match matchAt re prev (c :: cs) with
    | some stEnd =>
      let whole := (c :: cs).take ((c :: cs).length - stEnd.rest.length)
      some (stEnd.cap.getD whole, stEnd.prev, stEnd.rest)
    | none => scanFrom re (some c) cs

/-- All non-overlapping leftmost matches (`re.findall`), continuing each scan
at the end of the previous match.  The zero-width guard is unreachable for the
patterns below, which all consume at least one character per match. -/
def findAllFrom (re : RE) : Nat → Option Char → List Char → List (List Char)
  | 0, _, _ => []
  | fuel + 1, prev, rest =>
    match scanFrom re prev rest with
    | none => []
    | some (capt, prev1, rest1) =>
      if rest1.length < rest.length then capt :: findAllFrom re fuel prev1 rest1
      else [capt]

/-- Python `re.findall(pattern, s)`: the list of group-1 captures of every match. -/
def reFindAll (re : RE) (s : String) : List String :=
  (findAllFrom re (s.toList.length + 1) none s.toList).map (fun l => String.mk l)

/-- The group-1 capture of the first match, if any (`re.findall(...)[0]`). -/
def reFindFirst (re : RE) (s : String) : Option String :=
  (scanFrom re none s.toList).map (fun r => String.mk r.1)

/-! ### Pattern builders and the scraper's concrete patterns -/

/-- Literal string pattern. -/
def lit (s : String) : RE :=
  s.toList.foldr (fun c r => RE.seq (RE.cls (fun x => x == c)) r) RE.eps

/-- Character class listing its members, e.g. `[Ff]`. -/
def oneOf (s : String) : RE := RE.cls (fun c => s.toList.contains c)

/-- Case-insensitive literal (scoped `(?i: ... )`). -/
def ciLit (s : String) : RE :=
  s.toList.foldr (fun c r => RE.seq (RE.cls (fun x => x.toLower == c.toLower)) r) RE.eps

/-- Concatenation of a list of patterns. -/
def cat (l : List RE) : RE := l.foldr RE.seq RE.eps

/-- Greedy `+`. -/
def plus (r : RE) : RE := RE.seq r (RE.star r)

/-- Pattern `\d`. -/
def dch : RE := RE.cls Char.isDigit

/-- Pattern `\s*`. -/
def wsStar : RE := RE.star (RE.cls pyWs)

/-- Pattern `\s+`. -/
def wsPlus : RE := plus (RE.cls pyWs)

/-- Pattern `[^\d]*`. -/
def nonDigitStar : RE := RE.star (RE.cls (fun c => !c.isDigit))

/-- Pattern `\d+(?:,\d+)*`. -/
def numComma : RE := cat [plus dch, RE.star (cat [lit ",", plus dch])]

/-- Pattern `"[Ff]ollowersCount":\s*(\d+)` (src/scraper.py line 300). -/
def followerPattern1 : RE :=
  cat [lit "\"", oneOf "Ff", lit "ollowersCount\":", wsStar, RE.group (plus dch)]

/-- Pattern `"[Ff]ollowers":\s*(\d+)` (line 301). -/
def followerPattern2 : RE :=
  cat [lit "\"", oneOf "Ff", lit "ollowers\":", wsStar, RE.group (plus dch)]

/-- Pattern `"[Ff]ollowerCount":\s*(\d+)` (line 302). -/
def followerPattern3 : RE :=
  cat [lit "\"", oneOf "Ff", lit "ollowerCount\":", wsStar, RE.group (plus dch)]

/-- Pattern `followersCount["\']:\s*(\d+)` (line 303). -/
def followerPattern4 : RE :=
  cat [lit "followersCount", oneOf "\"\x27", lit ":", wsStar, RE.group (plus dch)]

/-- Pattern `followers["\']:\s*(\d+)` (line 304). -/
def followerPattern5 : RE :=
  cat [lit "followers", oneOf "\"\x27", lit ":", wsStar, RE.group (plus dch)]

/-- Pattern `FollowersCount["\']:\s*(\d+)` (line 305). -/
def followerPattern6 : RE :=
  cat [lit "FollowersCount", oneOf "\"\x27", lit ":", wsStar, RE.group (plus dch)]

/-- The six strategy-1 script patterns, in source order (lines 299-306). -/
def follower_patterns : List RE :=
  [followerPattern1, followerPattern2, followerPattern3,
   followerPattern4, followerPattern5, followerPattern6]

/-- Pattern `(\d+(?:,\d+)*)\s*[Ff]ollowers?` (line 339). -/
def textPattern1 : RE :=
  cat [RE.group numComma, wsStar, oneOf "Ff", lit "ollower", RE.opt (lit "s")]

/-- Pattern `[Ff]ollowers?:\s*(\d+(?:,\d+)*)` (line 340). -/
def textPattern2 : RE :=
  cat [oneOf "Ff", lit "ollower", RE.opt (lit "s"), lit ":", wsStar, RE.group numComma]

/-- Pattern `(\d+(?:,\d+)*)\s*people\s+follow` (line 341). -/
def textPattern3 : RE :=
  cat [RE.group numComma, wsStar, lit "people", wsPlus, lit "follow"]

/-- Pattern `(\d+(?:,\d+)*)\s*[Ff]ollowing\s+you` (line 342). -/
def textPattern4 : RE :=
  cat [RE.group numComma, wsStar, oneOf "Ff", lit "ollowing", wsPlus, lit "you"]

/-- Pattern `(\d+(?:\.\d*)?[KkMmBb]?)\s*[Ff]ollowers?` (line 343). -/
def textPattern5 : RE :=
  cat [RE.group (cat [plus dch, RE.opt (cat [lit ".", RE.star dch]), RE.opt (oneOf "KkMmBb")]),
       wsStar, oneOf "Ff", lit "ollower", RE.opt (lit "s")]

/-- The five strategy-3 page-text patterns, in source order (lines 338-344). -/
def text_patterns : List RE :=
  [textPattern1, textPattern2, textPattern3, textPattern4, textPattern5]

/-- Pattern `(?i:followers?|following)`. -/
def followWord : RE :=
  RE.alt (cat [ciLit "follower", RE.opt (oneOf "Ss")]) (ciLit "following")

/-- Pattern `\d+(?:\.\d+)?[kmb]?` (lowercase suffixes only, as in lines 356-357). -/
def numKMBLower : RE :=
  cat [plus dch, RE.opt (cat [lit ".", plus dch]), RE.opt (oneOf "kmb")]

/-- Pattern `(?i:followers?|following)[^\d]*(\d+(?:,\d+)*|\d+(?:\.\d+)?[kmb]?)` (line 356). -/
def contextPattern1 : RE :=
  cat [followWord, nonDigitStar, RE.group (RE.alt numComma numKMBLower)]

/-- Pattern `(\d+(?:,\d+)*|\d+(?:\.\d+)?[kmb]?)[^\d]*(?i:followers?|following)` (line 357). -/
def contextPattern2 : RE :=
  cat [RE.group (RE.alt numComma numKMBLower), nonDigitStar, followWord]

/-- The two strategy-4 context patterns, in source order (lines 355-358). -/
def follower_context_patterns : List RE := [contextPattern1, contextPattern2]

/-- Pattern `\d{1,3}` (greedy). -/
def d13 : RE := cat [dch, RE.opt (cat [dch, RE.opt dch])]

/-- Pattern `\b(\d{1,3}(?:,\d{3})+)\b` (line 372): comma-grouped integer literal. -/
def numberPattern1 : RE :=
  cat [RE.bnd, RE.group (cat [d13, plus (cat [lit ",", dch, dch, dch])]), RE.bnd]

/-- Pattern `\b(\d+(?:\.\d+)?[KkMmBb])\b` (line 373): k/m/b-suffixed number. -/
def numberPattern2 : RE :=
  cat [RE.bnd, RE.group (cat [plus dch, RE.opt (cat [lit ".", plus dch]), oneOf "KkMmBb"]), RE.bnd]

/-- The two strategy-5 heuristic patterns, in source order (lines 371-374). -/
def number_patterns : List RE := [numberPattern1, numberPattern2]

/-! ## The parsed page -/

/-- Abstraction of the parsed profile page
(`BeautifulSoup(response.content, 'html.parser')`) at exactly the granularity
the scraper inspects it. -/
structure Soup where
  /-- Text of the `<title>` element, when present (`soup.find('title')`). -/
  title : Option String
  /-- The `content` attribute of the first `<meta name="description">`
  element, when that element is present (`get('content', '')` turns a missing
  attribute into the empty string). -/
  metaDescription : Option String
  /-- The `content` attribute of the first `<meta property="og:title">`
  element, when present. -/
  ogTitle : Option String
  /-- Embeds `soup.select_one(sel)`: text of the first element matching a CSS
  selector, when any element matches. -/
  selectOne : String → Option String
  /-- Embeds `soup.select(sel)`: texts of every element matching a CSS selector, in
  document order. -/
  select : String → List String
  /-- Texts of all `<h1>` elements (`soup.find_all('h1')`), in document order. -/
  h1s : List String
  /-- Extracted text content of each `<script>` element, in document order
  (`script.string` when set, else `script.get_text()`; an empty entry models a
  script skipped by `if script_content:`). -/
  scripts : List String
  /-- Embeds `soup.get_text()`: the visible page text. -/
  text : String

/-! ## Username extraction (`_extract_username`, src/scraper.py lines 212-283) -/

/-- The guard `if username and len(username) < 50` shared by all strategies. -/
def goodUsername (u : String) : Bool := u != "" && u.length < 50

/-- Strategy 1 (lines 215-223): page title stripped of a " - Roblox" suffix. -/
def usernameStrategy1 (soup : Soup) : Option String :=
  match soup.title with
  | none => none
  | some t =>
    let title_text := String.mk (pyStrip t.toList)
    if pyContains title_text.toList " - Roblox".toList then
      let username := String.mk (pyStrip (pyReplace title_text.toList " - Roblox".toList []))
      if goodUsername username then some username else none
    else none

/-- Strategy 2 (lines 225-235): meta description before " is one of the millions". -/
def usernameStrategy2 (soup : Soup) : Option String :=
  match soup.metaDescription with
  | none => none
  | some content =>
    if content != "" && pyContains content.toList " is one of the millions".toList then
      let username :=
        String.mk (pyStrip (pySplitFirst content.toList " is one of the millions".toList))
      if goodUsername username then some username else none
    else none

/-- Strategy 3 (lines 237-247): Open Graph title stripped of "'s Profile". -/
def usernameStrategy3 (soup : Soup) : Option String :=
  match soup.ogTitle with
  | none => none
  | some content =>
    if content != "" && pyContains content.toList "\x27s Profile".toList then
      let username := String.mk (pyStrip (pyReplace content.toList "\x27s Profile".toList []))
      if goodUsername username then some username else none
    else none

/-- The fixed selector list of strategy 4 (lines 250-258). -/
def username_selectors : List String :=
  ["h1[data-testid=\"profile-display-name\"]",
   ".profile-display-name",
   ".profile-name h1",
   "h1.profile-name",
   ".header-title h1",
   ".profile-header h1",
   ".profile-card h1"]

/-- Strategy 4 (lines 249-268): first selector whose matched element passes
the username guard. -/
def usernameStrategy4 (soup : Soup) : Option String :=
  username_selectors.findSome? (fun selector =>
    match soup.selectOne selector with
    | none => none
    | some t =>
      let username := String.mk (pyStrip t.toList)
      if goodUsername username then some username else none)

/-- The words excluded by strategy 5 (line 275). -/
def h1ExcludedWords : List String := ["roblox", "profile", "error", "not found"]

/-- Strategy 5 (lines 270-278): any `<h1>` whose text is short and mentions
none of the excluded words. -/
def usernameStrategy5 (soup : Soup) : Option String :=
  soup.h1s.findSome? (fun h1 =>
    let text := String.mk (pyStrip h1.toList)
    if text != "" && text.length < 50 &&
        !(h1ExcludedWords.any (fun word => pyContains (pyLower text.toList) word.toList)) then
      some text
    else none)

/-- Shallow embedding of `RobloxScraper._extract_username` (lines 212-283):
the source's sequential early returns, falling through to `"Unknown"`.  The
outer `except` (line 281) is unreachable in the embedding because no embedded
operation fails. -/
def extract_username (soup : Soup) : String :=
  match usernameStrategy1 soup with
  | some u => u
  | none =>
  match usernameStrategy2 soup with
  | some u => u
  | none =>
  match usernameStrategy3 soup with
  | some u => u
  | none =>
  match usernameStrategy4 soup with
  | some u => u
  | none =>
  match usernameStrategy5 soup with
  | some u => u
  | none => "Unknown"

/-! ## Follower-count extraction (`_extract_followers`, lines 285-394) -/

/-- Strategy 1 (lines 288-311): for each script in document order, try the six
patterns in order and return the first capture, converted by `int`. -/
def followersStrategy1 (scripts : List String) : Option Int :=
  scripts.findSome? (fun script_content =>
    if script_content != "" then
      follower_patterns.findSome? (fun pattern =>
        match reFindFirst pattern script_content with
        | some m => some ((natOfDigits m.toList : Nat) : Int)
        | none => none)
    else none)

/-- The fixed selector list of strategy 2 (lines 314-325). -/
def follower_selectors : List String :=
  ["[data-testid=\"followers-count\"]",
   "[data-testid=\"follower-count\"]",
   ".followers-count",
   ".follower-count",
   ".profile-stats-followers",
   ".followers .stat-value",
   ".stat-followers .stat-value",
   ".profile-stat-followers",
   "[class*=\"follower\"] .text-label",
   "[class*=\"follower\"] .font-header-2"]

/-- Strategy 2 (lines 313-334): first selected element with a digit in its
text, normalized by `_parse_number`. -/
def followersStrategy2 (soup : Soup) : Option Int :=
  follower_selectors.findSome? (fun selector =>
    (soup.select selector).findSome? (fun element =>
      let text := String.mk (pyStrip element.toList)
      if text != "" && text.toList.any Char.isDigit then
        let follower_count := parse_number text
        if 0 ≤ follower_count then some follower_count else none
      else none))

/-- Strategy 3 (lines 336-352): five ordered page-text patterns, first
non-negative normalized match wins. -/
def followersStrategy3 (page_text : String) : Option Int :=
  text_patterns.findSome? (fun pattern =>
    (reFindAll pattern page_text).findSome? (fun m =>
      let follower_count := parse_number m
      if 0 ≤ follower_count then some follower_count else none))

/-- Strategy 4 (lines 354-366): the two context patterns, same rule. -/
def followersStrategy4 (page_text : String) : Option Int :=
  follower_context_patterns.findSome? (fun pattern =>
    (reFindAll pattern page_text).findSome? (fun m =>
      let follower_count := parse_number m
      if 0 ≤ follower_count then some follower_count else none))

/-- The candidate pool of strategy 5 (lines 371-382): every match of the two
number patterns, normalized, kept when within `[0, 100000000]`. -/
def strategy5Candidates (page_text : String) : List Int :=
  (((number_patterns.map (fun pattern => reFindAll pattern page_text)).flatten).map
      parse_number).filter (fun count => 0 ≤ count && count ≤ 100000000)

/-- Strategy 5 (lines 368-388): heuristic last resort, gated on the page text
containing both "profile" and "roblox"; sorts the candidates descending
(`sort(reverse=True)`) and returns the first. -/
def followersStrategy5 (page_text : String) : Option Int :=
  if pyContains (pyLower page_text.toList) "profile".toList &&
      pyContains (pyLower page_text.toList) "roblox".toList then
    let potential_followers := strategy5Candidates page_text
    if potential_followers.isEmpty then none
    else some ((potential_followers.insertionSort (fun a b => a ≥ b)).headD 0)
  else none

/-- Shallow embedding of `RobloxScraper._extract_followers` (lines 285-394):
the five strategies in order, first hit wins.  `page_text = soup.get_text()`
(line 337) feeds strategies 3-5; the wrapping `except` (line 392) is
unreachable in the embedding. -/
def extract_followers (soup : Soup) : Option Int :=
  match followersStrategy1 soup.scripts with
  | some f => some f
  | none =>
  match followersStrategy2 soup with
  | some f => some f
  | none =>
  match followersStrategy3 soup.text with
  | some f => some f
  | none =>
  match followersStrategy4 soup.text with
  | some f => some f
  | none => followersStrategy5 soup.text

/-- Modelled from the spec's words for C8 (refinement comparison only):
pattern-then-script iteration — for each of the six patterns in the fixed
order, scan all scripts in document order and return the first capture. -/
def followersStrategy1PatternFirst (scripts : List String) : Option Int :=
  follower_patterns.findSome? (fun pattern =>
    scripts.findSome? (fun script_content =>
      if script_content != "" then
        match reFindFirst pattern script_content with
        | some m => some ((natOfDigits m.toList : Nat) : Int)
        | none => none
      else none))

/-- An inert page: every field empty. -/
def emptySoup : Soup :=
  { title := none, metaDescription := none, ogTitle := none,
    selectOne := fun _ => none, select := fun _ => [],
    h1s := [], scripts := [], text := "" }

/-- The page of spec §8's username-precedence test: title "Jane - Roblox",
og:title "Someone Else's Profile". -/
def janeSoup : Soup :=
  { emptySoup with
    title := some "Jane - Roblox"
    ogTitle := some "Someone Else\x27s Profile" }

/-! ## The external world and the lookup pipeline -/

/-- Outcome of one `self.session.get(...)` call: a response, or one of the
exceptions `requests` can raise (`Timeout`, `ConnectionError`, anything else). -/
inductive Fetch (α : Type) where
  | ok (response : α)
  | timeout
  | connError
  | exc

/-- Parsed JSON body of the identity endpoint
(`https://users.roblox.com/v1/users/{id}`).  A field is `none` when the key is
absent (JSON `null` values are not distinguished from absent keys). -/
structure UserJson where
  name : Option String
  displayName : Option String

/-- Identity-endpoint response: HTTP status and parsed body; `json := none`
models a body on which `response.json()` raises. -/
structure UserResp where
  status : Nat
  json : Option UserJson

/-- Parsed JSON body of the follower-count endpoint
(`https://friends.roblox.com/v1/users/{id}/followers/count`). -/
structure CountJson where
  count : Option Int

/-- Follower-count-endpoint response. -/
structure CountResp where
  status : Nat
  json : Option CountJson

/-- Profile-page response: HTTP status, raw text (`response.text`) and parsed
document (`BeautifulSoup(response.content, 'html.parser')`). -/
structure PageResp where
  status : Nat
  text : String
  soup : Soup

/-- Everything external a single `get_user_followers` call can observe: the
answer each endpoint would give.  `countResp2` answers the one retry that
`_get_followers_from_api` issues after a 429. -/
structure World where
  userResp : Fetch UserResp
  countResp1 : Fetch CountResp
  countResp2 : Fetch CountResp
  profileResp : Fetch PageResp

/-- Shallow embedding of `RobloxScraper._get_username_from_api` (lines 82-98).
Status 200 yields `data.get('name', data.get('displayName'))`; 404 and every
other status yield `None`; the `except Exception` clause (lines 96-98) catches
every failure — transport timeouts and connection errors included — and also
yields `None`. -/
def get_username_from_api (w : World) : Option String :=
  match w.userResp with
  | .ok response =>
    if response.status = 200 then
      match response.json with
      | some data =>
        (match data.name with
         | some n => some n
         | none => data.displayName)
      | none => none
    else if response.status = 404 then none
    else none
  | _ => none

/-- Effect log of `_get_followers_from_api`: how many GET requests were issued
and how many seconds were spent in `time.sleep`. -/
structure CountCallLog where
  requests : Nat
  sleptSeconds : Nat

/-- Shallow embedding of `RobloxScraper._get_followers_from_api` (lines
100-129), paired with its effect log.  200 yields `data.get('count', 0)`; 404
yields `None`; 429 sleeps 2 seconds and issues exactly one retry, whose 200
yields its count and whose every other outcome yields `None`; any other
status yields `None`; the `except Exception` clause (lines 127-129) catches
every raised error — transport failures included — and yields `None`. -/
def get_followers_from_api (w : World) : Option Int × CountCallLog :=
  match w.countResp1 with
  | .ok response =>
    if response.status = 200 then
      match response.json with
      | some data => (some (data.count.getD 0), ⟨1, 0⟩)
      | none => (none, ⟨1, 0⟩)
    else if response.status = 404 then (none, ⟨1, 0⟩)
    else if response.status = 429 then
      match w.countResp2 with
      | .ok retry =>
        if retry.status = 200 then
          match retry.json with
          | some data => (some (data.count.getD 0), ⟨2, 2⟩)
          | none => (none, ⟨2, 2⟩)
        else (none, ⟨2, 2⟩)
      | _ => (none, ⟨2, 2⟩)
    else (none, ⟨1, 0⟩)
  | _ => (none, ⟨1, 0⟩)

/-- The result dictionary (spec §3 `LookupResult`); a key absent from the
Python dict is `none`. -/
structure LookupResult where
  success : Bool
  user_id : Int
  username : Option String := none
  followers : Option Int := none
  timestamp : Option String := none
  error : Option String := none
deriving DecidableEq

/-- Shallow embedding of `RobloxScraper._scrape_user_profile` (lines 131-210).
`now` is the `datetime.now().isoformat()` string.  `raise_for_status()` (line
140) raises `HTTPError` exactly for statuses in `[400, 600)`; the handler at
lines 191-203 maps 404 to "User not found" and every other such status to
"HTTP error: <code>".  The body check of line 146 is therefore reached only
for non-error statuses, where its `status_code == 404` disjunct is dead. -/
def scrape_user_profile (user_id : Int) (w : World) (now : String) : LookupResult :=
  match w.profileResp with
  | .ok response =>
    if 400 ≤ response.status ∧ response.status < 600 then
      if response.status = 404 then
        { success := false, error := some "User not found", user_id := user_id }
      else
        { success := false, error := some ("HTTP error: " ++ toString response.status),
          user_id := user_id }
    else if pyContains response.text.toList "User not found".toList ∨ response.status = 404 then
      { success := false, error := some "User not found", user_id := user_id }
    else
      let username := extract_username response.soup
      match extract_followers response.soup with
      | none =>
        { success := false,
          error := some "Could not extract follower count from profile page",
          user_id := user_id, username := some username }
      | some followers =>
        { success := true, user_id := user_id, username := some username,
          followers := some followers, timestamp := some now }
  | .timeout =>
    { success := false, error := some "Request timeout - Roblox servers may be slow",
      user_id := user_id }
  | .connError =>
    { success := false, error := some "Unable to connect to Roblox servers",
      user_id := user_id }
  | .exc =>
    { success := false, error := some "An unexpected error occurred during scraping",
      user_id := user_id }

/-- Shallow embedding of `RobloxScraper.get_user_followers` (lines 32-80).
Both structured helpers catch every exception internally and
`_scrape_user_profile` returns a dict on every path, so nothing inside the
`try` body can raise; the `except` handlers at lines 60-80 are unreachable
and have no counterpart in the embedding (see C1). -/
def get_user_followers (user_id : Int) (w : World) (now : String) : LookupResult :=
  let username := get_username_from_api w
  let followers := (get_followers_from_api w).1
  if (match username with | some u => u != "" | none => false) && followers.isSome then
    { success := true, user_id := user_id, username := username,
      followers := followers, timestamp := some now }
  else
    scrape_user_profile user_id w now

/-- A world in which every endpoint fails with a timeout except the profile
page, which serves a page whose only follower signal is an inline script. -/
def scriptPage : Soup :=
  { emptySoup with scripts := ["\x7b\"followersCount\": 431\x7d"] }

/-! ## Validation examples

Concrete evaluations of the embedding, cross-checked against the behaviour of
the Python `re` and `str` operations on the same inputs. -/

example : parse_number "1,234" = 1234 := by decide

example : parse_number "2.5k" = 2500 := by decide

example : parse_number "3M" = 3000000 := by decide

example : parse_number "abc" = 0 := by decide

example : parse_number "0" = 0 := by decide

example : parse_number "" = 0 := by decide

example : parse_number "1.2.3" = 0 := by decide

example : parse_number " 12,345 " = 12345 := by decide

example : parse_number "2.5B" = 2500000000 := by decide

example : reFindFirst followerPattern1 "xx\"followersCount\": 42yy" = some "42" := by decide

example : reFindFirst followerPattern1 "\"FollowersCount\":7" = some "7" := by decide

example : reFindFirst followerPattern6 "FollowersCount\x27:  123" = some "123" := by decide

example : reFindFirst followerPattern1 "\"followersCount\" : 42" = none := by decide

example : reFindAll numberPattern1 "a 1,234 b 12,345,678, c" = ["1,234", "12,345,678"] := by
  decide

example : reFindAll numberPattern1 "123,4567" = [] := by decide

example : reFindAll numberPattern1 "12,345,6789" = ["12,345"] := by decide

example : reFindAll numberPattern1 "1234,567" = [] := by decide

example : reFindAll numberPattern2 "2.5k and 3M x 12b." = ["2.5k", "3M", "12b"] := by decide

example : reFindAll numberPattern2 "2.5kk .5k" = ["5k"] := by decide

example : reFindAll numberPattern2 "1.2.3k" = ["2.3k"] := by decide

example : reFindAll numberPattern2 "7 k" = [] := by decide

example : reFindAll numberPattern1 "123,456,78" = ["123,456"] := by decide

example : reFindAll numberPattern1 "00,123" = ["00,123"] := by decide

example : reFindFirst textPattern5 "2. followers" = some "2." := by decide

example : reFindFirst contextPattern2 "12,34 followers" = some "12,34" := by decide

example : reFindFirst textPattern1 "has 1,234 Followers!" = some "1,234" := by decide

example : reFindFirst textPattern2 "followers: 77" = some "77" := by decide

example : reFindFirst textPattern5 "2.5K followers" = some "2.5K" := by decide

example : reFindFirst contextPattern1 "FOLLOWING - 9,876 x" = some "9,876" := by decide

example : reFindFirst contextPattern2 "2.5k cool followers" = some "2.5k" := by decide

example : reFindFirst contextPattern1 "no digits follow" = none := by decide

example : extract_username janeSoup = "Jane" := by decide

example : extract_username emptySoup = "Unknown" := by decide

example :
    extract_followers
      { emptySoup with scripts := ["var x = 1;", "\x7b\"followersCount\": 431\x7d"] } =
      some 431 := by decide

example : followersStrategy5 "profile roblox 1,234 and 2.5k" = some 2500 := by decide

example : followersStrategy5 "roblox 1,234 and 2.5k" = none := by decide

example :
    get_user_followers 5 ⟨.timeout, .timeout, .timeout, .ok ⟨200, "", scriptPage⟩⟩ "T" =
      { success := true, user_id := 5, username := some "Unknown",
        followers := some 431, timestamp := some "T" } := by decide

example :
    get_user_followers 5
        ⟨.ok ⟨200, some ⟨some "Alice", none⟩⟩, .ok ⟨200, some ⟨some 77⟩⟩, .exc, .exc⟩ "T" =
      { success := true, user_id := 5, username := some "Alice",
        followers := some 77, timestamp := some "T" } := by decide

/-! ## Helper lemmas -/

/-- Any value produced by `List.findSome?` is produced by `f` on some element. -/
theorem findSome_prop {α β : Type} {f : α → Option β} {P : β → Prop}
    (hf : ∀ a b, f a = some b → P b) :
    ∀ (l : List α) (v : β), l.findSome? f = some v → P v := by
  intro l
  induction l with
  | nil => intro v h; simp [List.findSome?] at h
  | cons a as ih =>
    intro v h
    simp only [List.findSome?] at h
    cases hfa : f a with
    | some b =>
      rw [hfa] at h
      exact Option.some.inj h ▸ hf a b hfa
    | none =>
      rw [hfa] at h
      exact ih v h

theorem followersStrategy1_nonneg :
    ∀ (scripts : List String) (v : Int), followersStrategy1 scripts = some v → 0 ≤ v := by
  intro scripts v h
  refine findSome_prop (f := fun script_content =>
    if script_content != "" then
      follower_patterns.findSome? (fun pattern =>
        match reFindFirst pattern script_content with
        | some m => some ((natOfDigits m.toList : Nat) : Int)
        | none => none)
    else none) (P := fun v => 0 ≤ v) ?_ scripts v h
  intro sc b hb
  dsimp only at hb
  split at hb
  · refine findSome_prop (P := fun v => 0 ≤ v) ?_ follower_patterns b hb
    intro p c hc
    cases hm : reFindFirst p sc with
    | some m => rw [hm] at hc; exact Option.some.inj hc ▸ Int.natCast_nonneg _
    | none => rw [hm] at hc; exact absurd hc (by simp)
  · exact absurd hb (by simp)

theorem followersStrategy2_nonneg :
    ∀ (soup : Soup) (v : Int), followersStrategy2 soup = some v → 0 ≤ v := by
  intro soup v h
  refine findSome_prop (P := fun v => 0 ≤ v) ?_ follower_selectors v h
  intro sel b hb
  refine findSome_prop (P := fun v => 0 ≤ v) ?_ (soup.select sel) b hb
  intro el c hc
  dsimp only at hc
  split at hc
  · split at hc
    · exact Option.some.inj hc ▸ (by assumption)
    · exact absurd hc (by simp)
  · exact absurd hc (by simp)

theorem followersStrategy3_nonneg :
    ∀ (pt : String) (v : Int), followersStrategy3 pt = some v → 0 ≤ v := by
  intro pt v h
  refine findSome_prop (P := fun v => 0 ≤ v) ?_ text_patterns v h
  intro p b hb
  refine findSome_prop (P := fun v => 0 ≤ v) ?_ (reFindAll p pt) b hb
  intro m c hc
  dsimp only at hc
  split at hc
  · exact Option.some.inj hc ▸ (by assumption)
  · exact absurd hc (by simp)

theorem followersStrategy4_nonneg :
    ∀ (pt : String) (v : Int), followersStrategy4 pt = some v → 0 ≤ v := by
  intro pt v h
  refine findSome_prop (P := fun v => 0 ≤ v) ?_ follower_context_patterns v h
  intro p b hb
  refine findSome_prop (P := fun v => 0 ≤ v) ?_ (reFindAll p pt) b hb
  intro m c hc
  dsimp only at hc
  split at hc
  · exact Option.some.inj hc ▸ (by assumption)
  · exact absurd hc (by simp)

/-- Full characterization of strategy 5's successes: the gate held, and the
result is a maximal element of the candidate pool. -/
theorem followersStrategy5_spec :
    ∀ (pt : String) (v : Int), followersStrategy5 pt = some v →
      (pyContains (pyLower pt.toList) "profile".toList = true ∧
       pyContains (pyLower pt.toList) "roblox".toList = true) ∧
      v ∈ strategy5Candidates pt ∧ ∀ c ∈ strategy5Candidates pt, c ≤ v := by
  intro pt v h
  unfold followersStrategy5 at h
  dsimp only at h
  split at h
  case isFalse => exact absurd h (by simp)
  case isTrue hgate =>
    split at h
    case isTrue => exact absurd h (by simp)
    case isFalse hne =>
      haveI htot : IsTotal Int (fun a b : Int => a ≥ b) := ⟨fun a b => le_total b a⟩
      haveI htr : IsTrans Int (fun a b : Int => a ≥ b) := ⟨fun _ _ _ h1 h2 => le_trans h2 h1⟩
      have hperm := List.perm_insertionSort (fun a b : Int => a ≥ b) (strategy5Candidates pt)
      have hsort := List.sorted_insertionSort (fun a b : Int => a ≥ b) (strategy5Candidates pt)
      cases hs : List.insertionSort (fun a b : Int => a ≥ b) (strategy5Candidates pt) with
      | nil =>
        rw [hs] at hperm
        rw [List.isEmpty_iff] at hne
        exact absurd (hperm.symm.eq_nil ▸ rfl : strategy5Candidates pt = []) hne
      | cons a t =>
        rw [hs] at hperm hsort h
        have hv : v = a := by
          have := Option.some.inj h
          simpa using this.symm
        rw [hv]
        constructor
        · exact ⟨by simpa using (Bool.and_eq_true _ _ ▸ hgate).1,
                 by simpa using (Bool.and_eq_true _ _ ▸ hgate).2⟩
        constructor
        · exact hperm.subset (List.mem_cons_self a t)
        · intro c hc
          rcases List.mem_cons.mp (hperm.symm.subset hc) with hh | hh
          · exact le_of_eq hh
          · exact List.rel_of_sorted_cons hsort c hh

theorem strategy5Candidates_range :
    ∀ (pt : String) (c : Int), c ∈ strategy5Candidates pt → 0 ≤ c ∧ c ≤ 100000000 := by
  intro pt c hc
  unfold strategy5Candidates at hc
  have := (List.mem_filter.mp hc).2
  simp only [Bool.and_eq_true, decide_eq_true_eq] at this
  exact this

theorem extract_followers_nonneg :
    ∀ (soup : Soup) (v : Int), extract_followers soup = some v → 0 ≤ v := by
  intro soup v h
  unfold extract_followers at h
  cases h1 : followersStrategy1 soup.scripts with
  | some f => rw [h1] at h; exact Option.some.inj h ▸ followersStrategy1_nonneg _ f h1
  | none =>
  rw [h1] at h
  cases h2 : followersStrategy2 soup with
  | some f => rw [h2] at h; exact Option.some.inj h ▸ followersStrategy2_nonneg _ f h2
  | none =>
  rw [h2] at h
  cases h3 : followersStrategy3 soup.text with
  | some f => rw [h3] at h; exact Option.some.inj h ▸ followersStrategy3_nonneg _ f h3
  | none =>
  rw [h3] at h
  cases h4 : followersStrategy4 soup.text with
  | some f => rw [h4] at h; exact Option.some.inj h ▸ followersStrategy4_nonneg _ f h4
  | none =>
  rw [h4] at h
  have h5 := followersStrategy5_spec soup.text v h
  exact (strategy5Candidates_range soup.text v h5.2.1).1

/-! ## Claim theorems -/

/-- C4 counterexample: `_parse_number` is not total.  On the input
"1<320 zeros>.0" the dotted residue's value reaches the binary64 overflow
threshold, so `float()` yields `inf` and `int(inf)` raises an
`OverflowError` that the handler `except (ValueError, AttributeError)` at
src/scraper.py line 420 does not catch. -/
theorem c4_counterexample :
    parse_number_raises (String.mk ('1' :: (List.replicate 320 '0' ++ ['.', '0']))) =
      true := by
  decide

/-- C4 amended (totality is refuted by `c4_counterexample`): `_parse_number`
raises an uncaught `OverflowError` on the overflow outcome of the dotted
branch; on every input where it does not raise it returns a non-negative
integer; it maps "1,234" to 1234, "2.5k" to 2500, "3M" to 3000000, "abc" to
0 and "0" to 0, none of which raises; and every malformed token — empty
residue, or dotted residue on which `float()` raises `ValueError` —
normalizes to 0. -/
theorem c4_parse_number_nonneg_unless_overflow :
    (∀ s : String, parse_number_raises s = false → 0 ≤ parse_number s) ∧
    parse_number_raises "1,234" = false ∧ parse_number "1,234" = 1234 ∧
    parse_number_raises "2.5k" = false ∧ parse_number "2.5k" = 2500 ∧
    parse_number_raises "3M" = false ∧ parse_number "3M" = 3000000 ∧
    parse_number_raises "abc" = false ∧ parse_number "abc" = 0 ∧
    parse_number_raises "0" = false ∧ parse_number "0" = 0 ∧
    ∀ s : String,
      (parse_residue s).2 = [] ∨
        ((parse_residue s).2.contains '.' = true ∧
          pyFloatIntMul (parse_residue s).2 (parse_residue s).1 = .valueError) →
      parse_number s = 0 := by
  refine ⟨?_, by decide, by decide, by decide, by decide, by decide, by decide, by decide,
    by decide, by decide, by decide, ?_⟩
  · intro s _
    unfold parse_number
    generalize parse_residue s = p
    obtain ⟨m, r⟩ := p
    dsimp only
    split
    · split
      · exact Int.natCast_nonneg _
      · exact Int.natCast_nonneg _
      · exact le_refl 0
    · split
      · exact le_refl 0
      · exact Int.natCast_nonneg _
  · intro s hmal
    unfold parse_number
    generalize hg : parse_residue s = p at hmal ⊢
    obtain ⟨m, r⟩ := p
    dsimp only at hmal ⊢
    rcases hmal with hr | ⟨hdot, hnone⟩
    · subst hr
      simp
    · simp only [hdot, hnone]
      simp

/-- C4 witness: the non-raising clause and the malformed-token clause at
concrete inputs. -/
theorem c4_witness : 0 ≤ parse_number "xyz" ∧ parse_number ".." = 0 :=
  ⟨c4_parse_number_nonneg_unless_overflow.1 "xyz" (by decide),
   c4_parse_number_nonneg_unless_overflow.2.2.2.2.2.2.2.2.2.2.2 ".." (by decide)⟩

/-- C5: when the follower-count endpoint answers 429, the lookup sleeps 2
seconds and retries exactly once: a 200 retry yields the retry's JSON count
(`data.get('count', 0)`), any other retry outcome yields no count; moreover
no call path ever issues more than two requests. -/
theorem c5_rate_limit_retry :
    (∀ (w : World) (r1 r2 : CountResp),
      w.countResp1 = .ok r1 → w.countResp2 = .ok r2 → r1.status = 429 →
      get_followers_from_api w =
        (if r2.status = 200 then
           match r2.json with
           | some data => some (data.count.getD 0)
           | none => none
         else none, ⟨2, 2⟩)) ∧
    ∀ w : World, (get_followers_from_api w).2.requests ≤ 2 := by
  constructor
  · intro w r1 r2 h1 h2 hs
    unfold get_followers_from_api
    rw [h1, h2]
    dsimp only
    rw [hs]
    norm_num
    split
    · split <;> rfl
    · rfl
  · intro w
    unfold get_followers_from_api
    cases w.countResp1 with
    | ok r =>
      dsimp only
      split
      · split <;> (dsimp only; omega)
      · split
        · dsimp only; omega
        · split
          · cases w.countResp2 with
            | ok r2 =>
              dsimp only
              split
              · split <;> (dsimp only; omega)
              · dsimp only; omega
            | timeout => dsimp only; omega
            | connError => dsimp only; omega
            | exc => dsimp only; omega
          · dsimp only; omega
    | timeout => dsimp only; omega
    | connError => dsimp only; omega
    | exc => dsimp only; omega

/-- C5 witness: a 429 answered by a 200 retry with count 9 yields 9 after two
requests and a 2-second sleep. -/
theorem c5_witness :
    get_followers_from_api ⟨.exc, .ok ⟨429, none⟩, .ok ⟨200, some ⟨some 9⟩⟩, .exc⟩ =
      (some 9, ⟨2, 2⟩) := by
  have h := c5_rate_limit_retry.1 ⟨.exc, .ok ⟨429, none⟩, .ok ⟨200, some ⟨some 9⟩⟩, .exc⟩
    ⟨429, none⟩ ⟨200, some ⟨some 9⟩⟩ rfl rfl rfl
  simpa using h

/-- C6: username extraction is the left-biased chain of its five strategies —
the first strategy yielding a candidate wins and later strategies are never
consulted — and on the spec's example page (title "Jane - Roblox", og:title
"Someone Else's Profile") the title strategy wins with "Jane". -/
theorem c6_username_strategy_order :
    (∀ soup : Soup,
      extract_username soup =
        (((((usernameStrategy1 soup).orElse (fun _ => usernameStrategy2 soup)).orElse
              (fun _ => usernameStrategy3 soup)).orElse
            (fun _ => usernameStrategy4 soup)).orElse
          (fun _ => usernameStrategy5 soup)).getD "Unknown") ∧
    usernameStrategy1 janeSoup = some "Jane" ∧
    extract_username janeSoup = "Jane" := by
  refine ⟨?_, by decide, by decide⟩
  intro soup
  unfold extract_username
  cases usernameStrategy1 soup <;> cases usernameStrategy2 soup <;>
    cases usernameStrategy3 soup <;> cases usernameStrategy4 soup <;>
    cases usernameStrategy5 soup <;> rfl

/-- C8 counterexample: with script A matching only the sixth pattern
(`FollowersCount':123`) and script B matching the first pattern
(`"followersCount": 456`), the code returns 123 — the iteration is
script-then-pattern, not the pattern-then-script order the claim states,
which would return 456. -/
theorem c8_counterexample :
    followersStrategy1 ["FollowersCount\x27:123", "\"followersCount\": 456"] = some 123 ∧
    followersStrategy1PatternFirst ["FollowersCount\x27:123", "\"followersCount\": 456"] =
      some 456 ∧
    followersStrategy1 ["FollowersCount\x27:123", "\"followersCount\": 456"] ≠
      followersStrategy1PatternFirst
        ["FollowersCount\x27:123", "\"followersCount\": 456"] := by
  decide

/-- C8 amended: strategy 1 iterates scripts outermost and patterns innermost —
the first (document-order) script in which any pattern matches wins, and
within that script the earliest pattern of the fixed list; the returned
number is that pattern's first match there.  The concrete instance shows a
matchless first script being skipped. -/
theorem c8_script_then_pattern_order :
    (∀ scripts : List String,
      followersStrategy1 scripts =
        scripts.findSome? (fun script_content =>
          if script_content != "" then
            follower_patterns.findSome? (fun pattern =>
              (reFindFirst pattern script_content).map
                (fun m => ((natOfDigits m.toList : Nat) : Int)))
          else none)) ∧
    followersStrategy1 ["var x = 1;", "\"followers\": 9"] = some 9 := by
  refine ⟨?_, by decide⟩
  intro scripts
  unfold followersStrategy1
  congr 1
  funext script_content
  split
  · congr 1
    funext pattern
    cases reFindFirst pattern script_content <;> rfl
  · rfl

/-- C7: the heuristic last-resort strategy returns a value only when the page
text contains both "profile" and "roblox" (case-insensitively), and any value
it returns lies within [0, 100000000] and is the largest normalized in-range
candidate (`strategy5Candidates`) among the comma-grouped and k/m/b-suffixed
numbers of the page text. -/
theorem c7_heuristic_last_resort :
    ∀ (page_text : String) (v : Int), followersStrategy5 page_text = some v →
      pyContains (pyLower page_text.toList) "profile".toList = true ∧
      pyContains (pyLower page_text.toList) "roblox".toList = true ∧
      0 ≤ v ∧ v ≤ 100000000 ∧
      v ∈ strategy5Candidates page_text ∧
      ∀ c ∈ strategy5Candidates page_text, c ≤ v := by
  intro pt v h
  obtain ⟨⟨hg1, hg2⟩, hmem, hmax⟩ := followersStrategy5_spec pt v h
  obtain ⟨hlo, hhi⟩ := strategy5Candidates_range pt v hmem
  exact ⟨hg1, hg2, hlo, hhi, hmem, hmax⟩

/-- C7 witness: on "profile roblox 1,234 and 2.5k" the strategy returns 2500,
a maximal member of the candidate pool. -/
theorem c7_witness :
    (2500 : Int) ∈ strategy5Candidates "profile roblox 1,234 and 2.5k" ∧
    ∀ c ∈ strategy5Candidates "profile roblox 1,234 and 2.5k", c ≤ (2500 : Int) :=
  ⟨(c7_heuristic_last_resort "profile roblox 1,234 and 2.5k" 2500 (by decide)).2.2.2.2.1,
   (c7_heuristic_last_resort "profile roblox 1,234 and 2.5k" 2500 (by decide)).2.2.2.2.2⟩

/-- C1 counterexample: with the identity and follower-count calls both timing
out, `get_user_followers` does not return the claimed failed timeout result —
it invokes the profile-scraping fallback, which here succeeds. -/
theorem c1_counterexample :
    get_user_followers 1 ⟨.timeout, .timeout, .timeout, .ok ⟨200, "", scriptPage⟩⟩ "T" =
      { success := true, user_id := 1, username := some "Unknown",
        followers := some 431, timestamp := some "T" } ∧
    get_user_followers 1 ⟨.timeout, .timeout, .timeout, .ok ⟨200, "", scriptPage⟩⟩ "T" ≠
      { success := false, user_id := 1,
        error := some "Request timeout - Roblox servers may be slow" } := by
  decide

/-- C1 amended (the claim as stated is refuted by `c1_counterexample`): a
transport-level timeout or connection failure during the structured identity
or follower-count call is caught inside the helper's blanket `except` and
treated as missing data, so `get_user_followers` falls through to the
profile-page scraping fallback and returns its result; the
"Request timeout - Roblox servers may be slow" and "Unable to connect to
Roblox servers" errors are produced only when the profile fetch itself fails
that way. -/
theorem c1_transport_failure_falls_back :
    (∀ (user_id : Int) (w : World) (now : String),
      (w.userResp = .timeout ∨ w.userResp = .connError ∨
        w.countResp1 = .timeout ∨ w.countResp1 = .connError) →
      get_user_followers user_id w now = scrape_user_profile user_id w now) ∧
    (∀ (user_id : Int) (w : World) (now : String),
      w.profileResp = .timeout →
      scrape_user_profile user_id w now =
        { success := false, error := some "Request timeout - Roblox servers may be slow",
          user_id := user_id }) ∧
    (∀ (user_id : Int) (w : World) (now : String),
      w.profileResp = .connError →
      scrape_user_profile user_id w now =
        { success := false, error := some "Unable to connect to Roblox servers",
          user_id := user_id }) := by
  refine ⟨?_, ?_, ?_⟩
  · intro uid w now h
    unfold get_user_followers
    rcases h with h | h | h | h <;>
      simp [get_username_from_api, get_followers_from_api, h]
  · intro uid w now h
    unfold scrape_user_profile
    rw [h]
  · intro uid w now h
    unfold scrape_user_profile
    rw [h]

/-- C1 witness: an identity-call timeout hands control to the scraping
fallback. -/
theorem c1_witness :
    get_user_followers 1 ⟨.timeout, .exc, .exc, .exc⟩ "T" =
      scrape_user_profile 1 ⟨.timeout, .exc, .exc, .exc⟩ "T" :=
  c1_transport_failure_falls_back.1 1 ⟨.timeout, .exc, .exc, .exc⟩ "T" (Or.inl rfl)

/-- Invariant of every `_scrape_user_profile` result: a success carries the
current timestamp and a non-negative extracted follower count; a failure
carries an error message. -/
theorem scrape_result_invariant :
    ∀ (user_id : Int) (w : World) (now : String),
      ((scrape_user_profile user_id w now).success = true →
        (scrape_user_profile user_id w now).timestamp = some now ∧
        ∃ n, (scrape_user_profile user_id w now).followers = some n ∧ 0 ≤ n) ∧
      ((scrape_user_profile user_id w now).success = false →
        ∃ e, (scrape_user_profile user_id w now).error = some e) := by
  intro uid w now
  unfold scrape_user_profile
  cases w.profileResp with
  | ok p =>
    dsimp only
    split
    · split
      · exact ⟨fun h => (nomatch h), fun _ => ⟨_, rfl⟩⟩
      · exact ⟨fun h => (nomatch h), fun _ => ⟨_, rfl⟩⟩
    · split
      · exact ⟨fun h => (nomatch h), fun _ => ⟨_, rfl⟩⟩
      · split
        · exact ⟨fun h => (nomatch h), fun _ => ⟨_, rfl⟩⟩
        · next f hf =>
            exact ⟨fun _ => ⟨rfl, f, rfl, extract_followers_nonneg _ f hf⟩, fun h => (nomatch h)⟩
  | timeout => exact ⟨fun h => (nomatch h), fun _ => ⟨_, rfl⟩⟩
  | connError => exact ⟨fun h => (nomatch h), fun _ => ⟨_, rfl⟩⟩
  | exc => exact ⟨fun h => (nomatch h), fun _ => ⟨_, rfl⟩⟩

/-- C2 counterexample: the structured path does not validate the JSON count,
so an external 200 response with count -1 yields `success = true` with a
negative `followers` value, refuting the claimed non-negativity invariant. -/
theorem c2_counterexample :
    (get_user_followers 7
        ⟨.ok ⟨200, some ⟨some "Alice", none⟩⟩, .ok ⟨200, some ⟨some (-1)⟩⟩, .exc, .exc⟩
        "T").success = true ∧
    (get_user_followers 7
        ⟨.ok ⟨200, some ⟨some "Alice", none⟩⟩, .ok ⟨200, some ⟨some (-1)⟩⟩, .exc, .exc⟩
        "T").followers = some (-1) := by
  decide

/-- C2 amended (strict non-negativity is refuted by `c2_counterexample`):
every result satisfies — on success, `timestamp` is present (the current
time) and `followers` is present, being either exactly the structured
endpoint's unvalidated count or a non-negative scraped value; on failure,
`error` is present. -/
theorem c2_result_invariant :
    ∀ (user_id : Int) (w : World) (now : String),
      ((get_user_followers user_id w now).success = true →
        (get_user_followers user_id w now).timestamp = some now ∧
        ∃ n, (get_user_followers user_id w now).followers = some n ∧
          ((get_followers_from_api w).1 = some n ∨ 0 ≤ n)) ∧
      ((get_user_followers user_id w now).success = false →
        ∃ e, (get_user_followers user_id w now).error = some e) := by
  intro uid w now
  unfold get_user_followers
  dsimp only
  split
  case isTrue hc =>
    refine ⟨fun _ => ⟨rfl, ?_⟩, fun h => (nomatch h)⟩
    have hf : (get_followers_from_api w).1.isSome = true := ((Bool.and_eq_true _ _).mp hc).2
    rcases ho : (get_followers_from_api w).1 with _ | n
    · rw [ho] at hf; exact nomatch hf
    · exact ⟨n, rfl, Or.inl rfl⟩
  case isFalse =>
    have h := scrape_result_invariant uid w now
    constructor
    · intro hs
      have := h.1 hs
      refine ⟨this.1, ?_⟩
      obtain ⟨n, hn, hpos⟩ := this.2
      exact ⟨n, hn, Or.inr hpos⟩
    · exact h.2

/-- C2 witness: a successful scrape-path result carries the timestamp. -/
theorem c2_witness :
    (get_user_followers 5 ⟨.timeout, .timeout, .timeout, .ok ⟨200, "", scriptPage⟩⟩ "T").timestamp
      = some "T" :=
  ((c2_result_invariant 5 ⟨.timeout, .timeout, .timeout, .ok ⟨200, "", scriptPage⟩⟩ "T").1
    (by decide)).1

/-- C3 counterexample: a 500 response whose body contains "User not found" is
reported as "HTTP error: 500", not "User not found" — `raise_for_status()`
runs before the body check. -/
theorem c3_counterexample :
    pyContains "Oops. User not found".toList "User not found".toList = true ∧
    scrape_user_profile 9 ⟨.exc, .exc, .exc, .ok ⟨500, "Oops. User not found", emptySoup⟩⟩ "T" =
      { success := false, user_id := 9, error := some "HTTP error: 500" } ∧
    scrape_user_profile 9 ⟨.exc, .exc, .exc, .ok ⟨500, "Oops. User not found", emptySoup⟩⟩ "T" ≠
      { success := false, user_id := 9, error := some "User not found" } := by
  decide

/-- C3 amended (the "regardless of status" form is refuted by
`c3_counterexample`): a body containing "User not found" yields the
`success=false` / "User not found" result for every status outside the
HTTPError range [400, 600), and for 404 (via the HTTPError handler); statuses
in [400, 600) other than 404 yield "HTTP error: <status>" instead. -/
theorem c3_user_not_found_marker :
    ∀ (user_id : Int) (w : World) (now : String) (p : PageResp),
      w.profileResp = .ok p →
      pyContains p.text.toList "User not found".toList = true →
      (¬ (400 ≤ p.status ∧ p.status < 600) ∨ p.status = 404) →
      scrape_user_profile user_id w now =
        { success := false, error := some "User not found", user_id := user_id } := by
  intro uid w now p hp hmark hst
  unfold scrape_user_profile
  rw [hp]
  dsimp only
  split
  case isTrue hrange =>
    rcases hst with hok | h404
    · exact absurd hrange hok
    · rw [if_pos h404]
  case isFalse hrange =>
    rw [if_pos (Or.inl hmark)]

/-- C3 witness: a 200 response whose body contains the marker yields the
"User not found" result. -/
theorem c3_witness :
    scrape_user_profile 3 ⟨.exc, .exc, .exc, .ok ⟨200, "User not found here", emptySoup⟩⟩ "T" =
      { success := false, error := some "User not found", user_id := 3 } :=
  c3_user_not_found_marker 3 ⟨.exc, .exc, .exc, .ok ⟨200, "User not found here", emptySoup⟩⟩
    "T" ⟨200, "User not found here", emptySoup⟩ rfl (by decide) (Or.inl (by decide))

/-- C9: two invocations with the same id against the same external world
return results identical in every field except possibly `timestamp`. -/
theorem c9_idempotent_modulo_timestamp :
    ∀ (user_id : Int) (w : World) (t1 t2 : String),
      (get_user_followers user_id w t1).success = (get_user_followers user_id w t2).success ∧
      (get_user_followers user_id w t1).user_id = (get_user_followers user_id w t2).user_id ∧
      (get_user_followers user_id w t1).username =
        (get_user_followers user_id w t2).username ∧
      (get_user_followers user_id w t1).followers =
        (get_user_followers user_id w t2).followers ∧
      (get_user_followers user_id w t1).error = (get_user_followers user_id w t2).error := by
  intro uid w t1 t2
  unfold get_user_followers
  dsimp only
  split
  · exact ⟨rfl, rfl, rfl, rfl, rfl⟩
  · unfold scrape_user_profile
    cases w.profileResp with
    | ok p =>
      dsimp only
      split
      · split <;> exact ⟨rfl, rfl, rfl, rfl, rfl⟩
      · split
        · exact ⟨rfl, rfl, rfl, rfl, rfl⟩
        · split <;> exact ⟨rfl, rfl, rfl, rfl, rfl⟩
    | timeout => exact ⟨rfl, rfl, rfl, rfl, rfl⟩
    | connError => exact ⟨rfl, rfl, rfl, rfl, rfl⟩
    | exc => exact ⟨rfl, rfl, rfl, rfl, rfl⟩

/-- Every username strategy only yields candidates passing the shared guard:
non-empty and shorter than 50 characters. -/
theorem usernameStrategy_good :
    ∀ (soup : Soup) (u : String),
      (usernameStrategy1 soup = some u ∨ usernameStrategy2 soup = some u ∨
        usernameStrategy3 soup = some u ∨ usernameStrategy4 soup = some u ∨
        usernameStrategy5 soup = some u) →
      u ≠ "" ∧ u.length < 50 := by
  intro soup u h
  rcases h with h | h | h | h | h
  · unfold usernameStrategy1 at h
    dsimp only at h
    split at h
    · exact nomatch h
    · split at h
      · split at h
        case isTrue hgood =>
          cases Option.some.inj h
          simpa [goodUsername] using hgood
        case isFalse => exact nomatch h
      · exact nomatch h
  · unfold usernameStrategy2 at h
    dsimp only at h
    split at h
    · exact nomatch h
    · split at h
      · split at h
        case isTrue hgood =>
          cases Option.some.inj h
          simpa [goodUsername] using hgood
        case isFalse => exact nomatch h
      · exact nomatch h
  · unfold usernameStrategy3 at h
    dsimp only at h
    split at h
    · exact nomatch h
    · split at h
      · split at h
        case isTrue hgood =>
          cases Option.some.inj h
          simpa [goodUsername] using hgood
        case isFalse => exact nomatch h
      · exact nomatch h
  · refine findSome_prop (P := fun u => u ≠ "" ∧ u.length < 50) ?_ username_selectors u h
    intro sel b hb
    dsimp only at hb
    split at hb
    · exact nomatch hb
    · split at hb
      case isTrue hgood =>
        cases Option.some.inj hb
        simpa [goodUsername] using hgood
      case isFalse => exact nomatch hb
  · refine findSome_prop (P := fun u => u ≠ "" ∧ u.length < 50) ?_ soup.h1s u h
    intro h1 b hb
    dsimp only at hb
    split at hb
    case isTrue hgood =>
      cases Option.some.inj hb
      have := (Bool.and_eq_true _ _).mp ((Bool.and_eq_true _ _).mp hgood).1
      refine ⟨by simpa using this.1, by simpa using this.2⟩
    case isFalse => exact nomatch hb

/-- C10: `_extract_username` always returns a non-empty string of fewer than
50 characters (every strategy enforces the guard and the fallback "Unknown"
satisfies it), and both results built after extraction runs — the success
result and the could-not-extract failure — carry the extracted username. -/
theorem c10_username_always_good :
    (∀ soup : Soup,
      extract_username soup ≠ "" ∧ (extract_username soup).length < 50) ∧
    (∀ (user_id : Int) (w : World) (now : String) (p : PageResp),
      w.profileResp = .ok p →
      ¬ (400 ≤ p.status ∧ p.status < 600) →
      pyContains p.text.toList "User not found".toList = false →
      (scrape_user_profile user_id w now).username = some (extract_username p.soup)) := by
  constructor
  · intro soup
    unfold extract_username
    cases h1 : usernameStrategy1 soup with
    | some u => exact usernameStrategy_good soup u (Or.inl h1)
    | none =>
    cases h2 : usernameStrategy2 soup with
    | some u => exact usernameStrategy_good soup u (Or.inr (Or.inl h2))
    | none =>
    cases h3 : usernameStrategy3 soup with
    | some u => exact usernameStrategy_good soup u (Or.inr (Or.inr (Or.inl h3)))
    | none =>
    cases h4 : usernameStrategy4 soup with
    | some u => exact usernameStrategy_good soup u (Or.inr (Or.inr (Or.inr (Or.inl h4))))
    | none =>
    cases h5 : usernameStrategy5 soup with
    | some u => exact usernameStrategy_good soup u (Or.inr (Or.inr (Or.inr (Or.inr h5))))
    | none => exact ⟨by decide, by decide⟩
  · intro uid w now p hp hrange hmark
    unfold scrape_user_profile
    rw [hp]
    dsimp only
    have hnot : ¬ (pyContains p.text.toList "User not found".toList = true ∨
        p.status = 404) := by
      rintro (hm | h404)
      · rw [hmark] at hm
        exact nomatch hm
      · refine hrange ⟨?_, ?_⟩ <;> rw [h404] <;> norm_num
    rw [if_neg hrange, if_neg hnot]
    cases extract_followers p.soup <;> rfl

/-- C10 witness: on a page with no username signal the extracted name is the
non-empty fallback "Unknown", and the scrape result of such a page carries
it. -/
theorem c10_witness :
    extract_username emptySoup ≠ "" ∧
    (scrape_user_profile 5 ⟨.timeout, .timeout, .timeout, .ok ⟨200, "", scriptPage⟩⟩
        "T").username = some (extract_username scriptPage) :=
  ⟨(c10_username_always_good.1 emptySoup).1,
   c10_username_always_good.2 5 ⟨.timeout, .timeout, .timeout, .ok ⟨200, "", scriptPage⟩⟩ "T"
     ⟨200, "", scriptPage⟩ rfl (by decide) (by decide)⟩

end Scraper
